import Mathlib

/-!
Verification of the reservation admission-control core of the
Apartment_Moving_Reservation repository.

The frontend code (TypeScript, under `frontend/src/`) is embedded directly:
`ReservationService.checkConflict`, `ReservationService.checkApartmentReservationLimit`,
`ReservationService.createReservation` (lib/services/reservations.ts),
the `handleSubmit` flow of components/component/reservation.tsx, and
`BusinessValidation.validateReservationTime` of the validation module.
The FastAPI backend that actually stores reservations and evaluates the
conflict / unit-limit / state-transition rules is not part of the source
tree; those operations are modelled from the specification (sections 3,
4.1, 4.2, 4.3) and are marked `Modelled from the spec:` below.

Timestamps are modelled as natural numbers; an HH:MM wall-clock time is
its total number of minutes (resp. hours where noted).
-/

/-- Resource types, the `reservation_type` union of reservations.ts:
elevator, parking, other. -/
inductive ResourceType where
  | elevator
  | parking
  | other
deriving DecidableEq, Repr

/-- Reservation statuses, the `status` union of reservations.ts:
pending, approved, rejected, completed, cancelled. -/
inductive Status where
  | pending
  | approved
  | rejected
  | completed
  | cancelled
deriving DecidableEq, Repr

/-- A status counts as active when it is pending or approved (spec section 3
"Active reservation"; the backend filters on exactly this pair). -/
def isActive (s : Status) : Bool :=
  match s with
  | .pending => true
  | .approved => true
  | _ => false

/-- Modelled from the spec: the persisted Reservation entity of section 3.
The frontend mirror (interface `Reservation` in reservations.ts) uses the
snake\_case names id, user\_id, reservation\_type, start\_time, end\_time,
status, admin\_comment and carries the apartment unit inside
`user.apartment_number`; here the owning unit is the `unit` field and
timestamps are naturals. -/
structure Reservation where
  id : Nat
  unit : Nat
  resourceType : ResourceType
  startTime : Nat
  endTime : Nat
  status : Status
  adminComment : Option String
deriving DecidableEq, Repr

/-- Modelled from the spec: the ephemeral ReservationRequest of section 3
(resourceType, startTime, endTime, requestingUnit, optional description). -/
structure ReservationRequest where
  resourceType : ResourceType
  startTime : Nat
  endTime : Nat
  requestingUnit : Nat
  description : Option String
deriving DecidableEq, Repr

/-- Half-open interval overlap predicate of spec section 3:
`a.startTime < b.endTime AND b.startTime < a.endTime`, applied to the
window `[aStart, aEnd)` against `[bStart, bEnd)`. -/
def overlapsWindow (aStart aEnd bStart bEnd : Nat) : Bool :=
  decide (aStart < bEnd) && decide (bStart < aEnd)

/-- Overlap of two stored reservations, specialising `overlapsWindow`. -/
def overlaps (a b : Reservation) : Bool :=
  overlapsWindow a.startTime a.endTime b.startTime b.endTime

/-- Result shape of the conflict check, matching the
`{ has_conflict, conflicting_reservations }` response type used by
`ReservationService.checkConflict`. -/
structure ConflictResult where
  has_conflict : Bool
  conflicting_reservations : List Reservation
deriving DecidableEq, Repr

/-- Result shape of the apartment-limit check, matching the
`{ has_existing_reservation, existing_reservations }` response type used by
`ReservationService.checkApartmentReservationLimit`. -/
structure LimitResult where
  has_existing_reservation : Bool
  existing_reservations : List Reservation
deriving DecidableEq, Repr

namespace Controller

/-- Modelled from the spec: the Conflict Checker of section 4.1, backing the
`/api/reservations/conflicts/check` endpoint (absent from the source tree).
It fetches all reservations of the candidate `resourceType` with an active
status and id different from `excludeReservationId`, keeps those whose
window overlaps the candidate half-open window, and reports a conflict
exactly when that list is nonempty (returning every overlapping record). -/
def checkConflict (store : List Reservation) (ty : ResourceType)
    (startTime endTime : Nat) (excludeReservationId : Option Nat) : ConflictResult :=
  let ms := store.filter (fun r =>
    decide (r.resourceType = ty) && isActive r.status &&
    (match excludeReservationId with
     | some i => !(decide (r.id = i))
     | none => true) &&
    overlapsWindow startTime endTime r.startTime r.endTime)
  { has_conflict := !ms.isEmpty, conflicting_reservations := ms }

/-- Modelled from the spec: the Unit-Cardinality Checker of section 4.2,
backing the `/api/reservations/check-apartment-limit` endpoint (absent from
the source tree). It queries the store for reservations with
`unit == requestingUnit` and an active status and returns all matches. -/
def checkUnitLimit (store : List Reservation) (requestingUnit : Nat) : LimitResult :=
  let existing := store.filter (fun r =>
    decide (r.unit = requestingUnit) && isActive r.status)
  { has_existing_reservation := !existing.isEmpty, existing_reservations := existing }

/-- Modelled from the spec: request-shape validation of section 4.3 step 1.
The resource type is one of the three enumerated values by typing, and the
requesting unit is present by typing, so the residual check is
`startTime < endTime`. -/
def validateRequest (req : ReservationRequest) : Bool :=
  decide (req.startTime < req.endTime)

/-- The record persisted on successful admission: a fresh Reservation in
`pending` state carrying the request's fields (spec section 4.3 step 4). -/
def newReservation (req : ReservationRequest) (newId : Nat) : Reservation :=
  { id := newId
    unit := req.requestingUnit
    resourceType := req.resourceType
    startTime := req.startTime
    endTime := req.endTime
    status := .pending
    adminComment := none }

/-- Modelled from the spec: the AdmissionError taxonomy of section 7 that
`submit` can produce, each carrying the blocking records. -/
inductive AdmissionError where
  | validationError
  | unitLimitExceeded (existing : List Reservation)
  | timeConflict (conflicting : List Reservation)
deriving DecidableEq, Repr

/-- Modelled from the spec: `submit` of section 4.3 — validate the request
shape, run the Unit-Cardinality Checker, run the Conflict Checker, and only
if both checks pass persist a new pending Reservation, returning the
created record together with the extended store. -/
def submit (store : List Reservation) (req : ReservationRequest) (newId : Nat) :
    Except AdmissionError (Reservation × List Reservation) :=
  if validateRequest req = false then
    .error .validationError
  else
    let lim := checkUnitLimit store req.requestingUnit
    if lim.has_existing_reservation then
      .error (.unitLimitExceeded lim.existing_reservations)
    else
      let conf := checkConflict store req.resourceType req.startTime req.endTime none
      if conf.has_conflict then
        .error (.timeConflict conf.conflicting_reservations)
      else
        let r := newReservation req newId
        .ok (r, r :: store)

/-- A sequence of submissions: each successfully admitted reservation is
persisted, each rejected request leaves the store untouched. -/
def runSubmits (store : List Reservation) : List (ReservationRequest × Nat) → List Reservation
  | [] => store
  | (req, newId) :: rest =>
    match submit store req newId with
    | .ok (_, store') => runSubmits store' rest
    | .error _ => runSubmits store rest

end Controller

/-- Two active reservations of the same resource type clash when their
half-open windows overlap (spec invariant P1, section 3). -/
def clash (a b : Reservation) : Bool :=
  decide (a.resourceType = b.resourceType) && isActive a.status && isActive b.status &&
    overlaps a b

/-- The no-double-booking invariant: no reservation in the store clashes
with any reservation after it (hence, by symmetry of `overlaps`, no two
distinct entries clash). -/
def conflictFree : List Reservation → Bool
  | [] => true
  | r :: rest => rest.all (fun b => !(clash r b)) && conflictFree rest

/-- Number of active reservations a given unit holds in the store. -/
def activeCountForUnit (store : List Reservation) (u : Nat) : Nat :=
  (store.filter (fun r => decide (r.unit = u) && isActive r.status)).length

/-- The unit-cardinality invariant P2: every unit holds at most one active
reservation. -/
def UnitCardinality (store : List Reservation) : Prop :=
  ∀ u : Nat, activeCountForUnit store u ≤ 1

example : Controller.submit [] ⟨.elevator, 9, 12, 101, none⟩ 1 =
    .ok (⟨1, 101, .elevator, 9, 12, .pending, none⟩, [⟨1, 101, .elevator, 9, 12, .pending, none⟩]) := rfl

example :
    Controller.submit [⟨1, 101, .elevator, 9, 12, .pending, none⟩] ⟨.elevator, 11, 13, 102, none⟩ 2 =
    .error (.timeConflict [⟨1, 101, .elevator, 9, 12, .pending, none⟩]) := rfl

example :
    Controller.submit [⟨1, 101, .elevator, 9, 12, .pending, none⟩] ⟨.parking, 9, 12, 101, none⟩ 2 =
    .error (.unitLimitExceeded [⟨1, 101, .elevator, 9, 12, .pending, none⟩]) := rfl

example :
    Controller.submit [⟨1, 101, .elevator, 9, 12, .rejected, none⟩] ⟨.elevator, 10, 11, 102, none⟩ 2 =
    .ok (⟨2, 102, .elevator, 10, 11, .pending, none⟩,
      [⟨2, 102, .elevator, 10, 11, .pending, none⟩, ⟨1, 101, .elevator, 9, 12, .rejected, none⟩]) := rfl

namespace Controller

/-- Inversion for a successful admission: both checks passed, the request
validated, and the store grew by exactly the fresh pending record. -/
theorem submit_ok_elim {store : List Reservation} {req : ReservationRequest} {newId : Nat}
    {r : Reservation} {s' : List Reservation}
    (h : submit store req newId = .ok (r, s')) :
    validateRequest req = true ∧
    (checkUnitLimit store req.requestingUnit).has_existing_reservation = false ∧
    (checkConflict store req.resourceType req.startTime req.endTime none).has_conflict = false ∧
    r = newReservation req newId ∧ s' = r :: store := by
  simp only [submit] at h
  split_ifs at h with h1 h2 h3
  · simp only [Except.ok.injEq, Prod.mk.injEq] at h
    refine ⟨by simpa using h1, by simpa using h2, by simpa using h3, h.1.symm, ?_⟩
    rw [h.2.symm, h.1]

/-- When the conflict check (with no excluded id) reports no conflict, no
active stored reservation of the candidate type overlaps the window. -/
theorem checkConflict_none_sound {store : List Reservation} {ty : ResourceType}
    {s e : Nat} (h : (checkConflict store ty s e none).has_conflict = false)
    {b : Reservation} (hb : b ∈ store) (hty : b.resourceType = ty)
    (hact : isActive b.status = true) :
    overlapsWindow s e b.startTime b.endTime = false := by
  simp only [checkConflict, Bool.not_eq_false', List.isEmpty_iff,
    List.filter_eq_nil_iff] at h
  have := h b hb
  simpa [hty, hact] using this

/-- When the unit-limit check reports no existing reservation, the unit's
active count in the store is zero. -/
theorem checkUnitLimit_none_sound {store : List Reservation} {u : Nat}
    (h : (checkUnitLimit store u).has_existing_reservation = false) :
    activeCountForUnit store u = 0 := by
  simp only [checkUnitLimit, Bool.not_eq_false', List.isEmpty_iff] at h
  simp [activeCountForUnit, h]

end Controller

/-- A successful admission preserves the no-double-booking invariant. -/
theorem conflictFree_preserved_by_submit {store : List Reservation}
    {req : ReservationRequest} {newId : Nat} {r : Reservation} {s' : List Reservation}
    (hsub : Controller.submit store req newId = .ok (r, s'))
    (h : conflictFree store = true) : conflictFree s' = true := by
  obtain ⟨-, -, hconf, hr, hs'⟩ := Controller.submit_ok_elim hsub
  subst hs' hr
  simp only [conflictFree, Bool.and_eq_true, List.all_eq_true]
  refine ⟨fun b hb => ?_, h⟩
  simp only [Bool.not_eq_true']
  by_cases hty : req.resourceType = b.resourceType
  · by_cases hact : isActive b.status = true
    · have hov := Controller.checkConflict_none_sound hconf hb hty.symm hact
      simp [clash, Controller.newReservation, overlaps, hov, hty, hact]
    · rw [Bool.not_eq_true] at hact
      simp [clash, Controller.newReservation, hact]
  · simp [clash, Controller.newReservation, hty]

/-- Unfolding the active count over a cons cell. -/
theorem activeCountForUnit_cons (r : Reservation) (store : List Reservation) (u : Nat) :
    activeCountForUnit (r :: store) u =
      (if (decide (r.unit = u) && isActive r.status) = true then 1 else 0) +
        activeCountForUnit store u := by
  simp only [activeCountForUnit, List.filter_cons]
  split <;> simp [Nat.add_comm]

/-- A successful admission preserves the unit-cardinality invariant. -/
theorem unitCardinality_preserved_by_submit {store : List Reservation}
    {req : ReservationRequest} {newId : Nat} {r : Reservation} {s' : List Reservation}
    (hsub : Controller.submit store req newId = .ok (r, s'))
    (h : UnitCardinality store) : UnitCardinality s' := by
  obtain ⟨-, hlim, -, hr, hs'⟩ := Controller.submit_ok_elim hsub
  subst hs' hr
  intro u
  rw [activeCountForUnit_cons]
  by_cases hu : req.requestingUnit = u
  · have hzero := Controller.checkUnitLimit_none_sound hlim
    subst hu
    simp [Controller.newReservation, isActive, hzero]
  · have : (decide ((Controller.newReservation req newId).unit = u) &&
        isActive (Controller.newReservation req newId).status) = false := by
      simp [Controller.newReservation, hu]
    rw [this]
    simpa using h u

/-- The no-double-booking invariant is preserved along any submission
sequence. -/
theorem conflictFree_runSubmits {store : List Reservation}
    (h : conflictFree store = true) (ops : List (ReservationRequest × Nat)) :
    conflictFree (Controller.runSubmits store ops) = true := by
  induction ops generalizing store with
  | nil => simpa [Controller.runSubmits] using h
  | cons op rest ih =>
    obtain ⟨req, newId⟩ := op
    simp only [Controller.runSubmits]
    cases hsub : Controller.submit store req newId with
    | ok pr =>
      obtain ⟨r, s'⟩ := pr
      exact ih (conflictFree_preserved_by_submit hsub h)
    | error e => exact ih h

/-- The unit-cardinality invariant is preserved along any submission
sequence. -/
theorem unitCardinality_runSubmits {store : List Reservation}
    (h : UnitCardinality store) (ops : List (ReservationRequest × Nat)) :
    UnitCardinality (Controller.runSubmits store ops) := by
  induction ops generalizing store with
  | nil => simpa [Controller.runSubmits] using h
  | cons op rest ih =>
    obtain ⟨req, newId⟩ := op
    simp only [Controller.runSubmits]
    cases hsub : Controller.submit store req newId with
    | ok pr =>
      obtain ⟨r, s'⟩ := pr
      exact ih (unitCardinality_preserved_by_submit hsub h)
    | error e => exact ih h

/-- C1: starting from a store with no double-booking, every sequence of
successfully admitted reservations keeps the invariant that no two active
reservations of the same resource type have overlapping half-open windows;
moreover, whenever the conflict check of the admission flow reports an
overlap with an existing active reservation, `submit` rejects the request
with `timeConflict`, returning the conflicting records. -/
theorem submit_no_double_booking (store : List Reservation)
    (h : conflictFree store = true) (ops : List (ReservationRequest × Nat)) :
    conflictFree (Controller.runSubmits store ops) = true ∧
    ∀ req : ReservationRequest, ∀ newId : Nat,
      Controller.validateRequest req = true →
      (Controller.checkUnitLimit store req.requestingUnit).has_existing_reservation = false →
      (Controller.checkConflict store req.resourceType req.startTime
        req.endTime none).has_conflict = true →
      Controller.submit store req newId =
        .error (.timeConflict (Controller.checkConflict store req.resourceType
          req.startTime req.endTime none).conflicting_reservations) := by
  refine ⟨conflictFree_runSubmits h ops, fun req newId hval hlim hconf => ?_⟩
  simp [Controller.submit, hval, hlim, hconf]

/-- Witness for `submit_no_double_booking`: a concrete store with one
pending elevator reservation, a two-submission sequence, and a concrete
overlapping request rejected with `timeConflict`. -/
theorem submit_no_double_booking_witness :
    conflictFree (Controller.runSubmits [⟨1, 101, .elevator, 9, 12, .pending, none⟩]
      [(⟨.elevator, 11, 13, 102, none⟩, 2), (⟨.elevator, 12, 15, 103, none⟩, 3)]) = true ∧
    Controller.submit [⟨1, 101, .elevator, 9, 12, .pending, none⟩]
      ⟨.elevator, 11, 13, 102, none⟩ 2 =
      .error (.timeConflict [⟨1, 101, .elevator, 9, 12, .pending, none⟩]) := by
  have h := submit_no_double_booking [⟨1, 101, .elevator, 9, 12, .pending, none⟩] rfl
    [(⟨.elevator, 11, 13, 102, none⟩, 2), (⟨.elevator, 12, 15, 103, none⟩, 3)]
  exact ⟨h.1, h.2 ⟨.elevator, 11, 13, 102, none⟩ 2 rfl rfl rfl⟩

/-- C3: starting from a store where every unit holds at most one active
reservation, every sequence of submissions keeps that bound; moreover, a
valid submission from a unit that already holds an active reservation fails
with `unitLimitExceeded` — whatever its resource type and time window —
returning the unit's existing reservations. -/
theorem submit_unit_cardinality (store : List Reservation)
    (h : UnitCardinality store) (ops : List (ReservationRequest × Nat)) :
    UnitCardinality (Controller.runSubmits store ops) ∧
    ∀ req : ReservationRequest, ∀ newId : Nat,
      Controller.validateRequest req = true →
      (Controller.checkUnitLimit store req.requestingUnit).has_existing_reservation = true →
      Controller.submit store req newId =
        .error (.unitLimitExceeded
          (Controller.checkUnitLimit store req.requestingUnit).existing_reservations) := by
  refine ⟨unitCardinality_runSubmits h ops, fun req newId hval hlim => ?_⟩
  simp [Controller.submit, hval, hlim]

/-- Witness for `submit_unit_cardinality`: a store with one pending
reservation for unit 101 satisfies the cardinality bound, keeps it along a
submission sequence, and a parking request from unit 101 with a disjoint
window is rejected with `unitLimitExceeded`. -/
theorem submit_unit_cardinality_witness :
    UnitCardinality (Controller.runSubmits [⟨1, 101, .elevator, 9, 12, .pending, none⟩]
      [(⟨.elevator, 12, 15, 102, none⟩, 2)]) ∧
    Controller.submit [⟨1, 101, .elevator, 9, 12, .pending, none⟩]
      ⟨.parking, 14, 16, 101, none⟩ 2 =
      .error (.unitLimitExceeded [⟨1, 101, .elevator, 9, 12, .pending, none⟩]) := by
  have hcard : UnitCardinality [⟨1, 101, .elevator, 9, 12, .pending, none⟩] := by
    intro u
    by_cases hu : u = 101 <;>
      simp [activeCountForUnit, List.filter, isActive, hu, Ne.symm]
  have h := submit_unit_cardinality [⟨1, 101, .elevator, 9, 12, .pending, none⟩] hcard
    [(⟨.elevator, 12, 15, 102, none⟩, 2)]
  exact ⟨h.1, h.2 ⟨.parking, 14, 16, 101, none⟩ 2 rfl rfl⟩

/-- C4: when one reservation ends exactly where the other starts, the
half-open overlap predicate `a.startTime < b.endTime AND b.startTime <
a.endTime` is false whatever the remaining endpoints, and two such
back-to-back requests of the same resource type (from distinct units, with
well-formed windows) are both admitted. -/
theorem boundary_non_overlap_admissible (req1 req2 : ReservationRequest)
    (h1 : req1.startTime < req1.endTime) (h2 : req2.startTime < req2.endTime)
    (hb : req1.endTime = req2.startTime)
    (hty : req1.resourceType = req2.resourceType)
    (hu : req1.requestingUnit ≠ req2.requestingUnit) :
    (∀ aStart bEnd : Nat, overlapsWindow aStart req1.endTime req2.startTime bEnd = false) ∧
    Controller.submit [] req1 1 =
      .ok (Controller.newReservation req1 1, [Controller.newReservation req1 1]) ∧
    Controller.submit [Controller.newReservation req1 1] req2 2 =
      .ok (Controller.newReservation req2 2,
        [Controller.newReservation req2 2, Controller.newReservation req1 1]) := by
  have hnov : ∀ aStart bEnd : Nat,
      overlapsWindow aStart req1.endTime req2.startTime bEnd = false := by
    intro aStart bEnd
    simp [overlapsWindow, hb]
  refine ⟨hnov, ?_, ?_⟩
  · simp [Controller.submit, Controller.validateRequest, h1, Controller.checkUnitLimit,
      Controller.checkConflict]
  · have hov2 : overlapsWindow req2.startTime req2.endTime req1.startTime req1.endTime = false := by
      simp [overlapsWindow, hb]
    simp [Controller.submit, Controller.validateRequest, h2, Controller.checkUnitLimit,
      Controller.checkConflict, Controller.newReservation, List.filter,
      hu, Ne.symm hu, isActive, hov2]

/-- Witness for `boundary_non_overlap_admissible`: an elevator reservation
09:00–12:00 for unit 101 and a back-to-back elevator reservation
12:00–15:00 for unit 102 do not conflict and are both admitted. -/
theorem boundary_non_overlap_admissible_witness :
    (∀ aStart bEnd : Nat, overlapsWindow aStart 12 12 bEnd = false) ∧
    Controller.submit [] ⟨.elevator, 9, 12, 101, none⟩ 1 =
      .ok (⟨1, 101, .elevator, 9, 12, .pending, none⟩,
        [⟨1, 101, .elevator, 9, 12, .pending, none⟩]) ∧
    Controller.submit [⟨1, 101, .elevator, 9, 12, .pending, none⟩]
      ⟨.elevator, 12, 15, 102, none⟩ 2 =
      .ok (⟨2, 102, .elevator, 12, 15, .pending, none⟩,
        [⟨2, 102, .elevator, 12, 15, .pending, none⟩,
         ⟨1, 101, .elevator, 9, 12, .pending, none⟩]) :=
  boundary_non_overlap_admissible ⟨.elevator, 9, 12, 101, none⟩ ⟨.elevator, 12, 15, 102, none⟩
    (by decide) (by decide) rfl rfl (by decide)

/-- Error codes of the frontend error system (enum `ErrorCode` in the
errors module), mapped one-to-one; the string values AUTH\_001 … NETWORK\_003
are immaterial to the claims and are dropped. -/
inductive ErrorCode where
  | UNAUTHORIZED
  | INVALID_CREDENTIALS
  | TOKEN_EXPIRED
  | INSUFFICIENT_PERMISSIONS
  | ACCOUNT_DISABLED
  | ADMIN_APPROVAL_REQUIRED
  | USER_NOT_FOUND
  | USER_ALREADY_EXISTS
  | INVALID_USER_DATA
  | USER_INACTIVE
  | APARTMENT_NUMBER_REQUIRED
  | RESERVATION_NOT_FOUND
  | RESERVATION_TIME_CONFLICT
  | INVALID_RESERVATION_TIME
  | RESERVATION_ALREADY_APPROVED
  | RESERVATION_CANCELLED
  | PAST_DATE_RESERVATION
  | MAX_RESERVATIONS_EXCEEDED
  | NOTICE_NOT_FOUND
  | INVALID_NOTICE_TYPE
  | NOTICE_ALREADY_PUBLISHED
  | VALIDATION_ERROR
  | MISSING_REQUIRED_FIELD
  | INVALID_DATA_FORMAT
  | INVALID_DATE_RANGE
  | NOT_FOUND
  | DUPLICATE_VALUE
  | OPERATION_FAILED
  | BAD_REQUEST
  | FORBIDDEN
  | NETWORK_ERROR
  | TIMEOUT_ERROR
  | CONNECTION_REFUSED
deriving DecidableEq, Repr

/-- The AppError class of the frontend error system: a typed error carrying
a code, a developer message, a user message and an optional HTTP status
code (the `details` record and timestamp are dropped as immaterial). Every
failure of an `api.*` call surfaces as such a value. -/
structure AppError where
  code : ErrorCode
  message : String
  userMessage : String
  statusCode : Option Nat
deriving DecidableEq, Repr

/-- A plain JavaScript `Error` as thrown by `throw new Error(message)`:
it carries only a message string, no code and no records. -/
structure ThrownError where
  message : String
deriving DecidableEq, Repr

namespace ReservationService

/-- Embedding of `ReservationService.checkConflict`
(reservations.ts lines 157–188). The function formats the candidate
window into query parameters and performs a GET against
`/api/reservations/conflicts/check`; the `response` argument stands for
the outcome of that call. On success the backend result is returned
unchanged; on any error the catch block logs and returns
`{ has_conflict: false, conflicting_reservations: [] }`. -/
def checkConflict (reservationType : ResourceType) (startTime endTime : Nat)
    (excludeReservationId : Option Nat)
    (response : Except AppError ConflictResult) : ConflictResult :=
  match response with
  | .ok result => result
  | .error _ => { has_conflict := false, conflicting_reservations := [] }

/-- Embedding of `ReservationService.checkApartmentReservationLimit`
(reservations.ts lines 251–266). The `response` argument stands for the
outcome of the GET against `/api/reservations/check-apartment-limit`; on
any error the catch block logs and returns
`{ has_existing_reservation: false, existing_reservations: [] }`. -/
def checkApartmentReservationLimit
    (response : Except AppError LimitResult) : LimitResult :=
  match response with
  | .ok result => result
  | .error _ => { has_existing_reservation := false, existing_reservations := [] }

/-- Embedding of `ReservationService.createReservation`
(reservations.ts lines 63–71). On success the created record is returned;
on any error the catch block throws `new Error(message)` where `message`
is `error.response?.data?.detail || '예약 생성에 실패했습니다.'` — the thrown
`AppError` has no `response` field, so the generic fallback string is
used. A `.error` result models the thrown exception. -/
def createReservation (response : Except AppError Reservation) :
    Except ThrownError Reservation :=
  match response with
  | .ok result => .ok result
  | .error _ => .error { message := "예약 생성에 실패했습니다." }

/-- Embedding of `ReservationService.updateReservationStatus`
(reservations.ts lines 193–201), shared by `approveReservation` and
`rejectReservation`: on any error the catch block throws
`new Error('예약 상태 변경에 실패했습니다.')` (same fallback mechanism as
`createReservation`). -/
def updateReservationStatus (response : Except AppError Reservation) :
    Except ThrownError Reservation :=
  match response with
  | .ok result => .ok result
  | .error _ => .error { message := "예약 상태 변경에 실패했습니다." }

/-- Embedding of `ReservationService.approveReservation`: delegates to
`updateReservationStatus` with status `approved`. -/
def approveReservation (response : Except AppError Reservation) :
    Except ThrownError Reservation :=
  updateReservationStatus response

/-- Embedding of `ReservationService.rejectReservation`: delegates to
`updateReservationStatus` with status `rejected`. -/
def rejectReservation (response : Except AppError Reservation) :
    Except ThrownError Reservation :=
  updateReservationStatus response

end ReservationService

/-- C2: for every input, when the backend call of the conflict checker
fails with any error, `ReservationService.checkConflict` returns
`has_conflict = false` with an empty conflicting list — store failure is
treated as "no conflict". -/
theorem checkConflict_fail_open (ty : ResourceType) (s e : Nat)
    (ex : Option Nat) (err : AppError) :
    ReservationService.checkConflict ty s e ex (.error err) =
      { has_conflict := false, conflicting_reservations := [] } := rfl

/-- Witness for `checkConflict_fail_open`: a concrete network failure
during a conflict check for an elevator window. -/
theorem checkConflict_fail_open_witness :
    ReservationService.checkConflict .elevator 9 12 none
      (.error ⟨.NETWORK_ERROR, "Network Error", "네트워크 연결에 문제가 있습니다.", none⟩) =
      { has_conflict := false, conflicting_reservations := [] } :=
  checkConflict_fail_open .elevator 9 12 none
    ⟨.NETWORK_ERROR, "Network Error", "네트워크 연결에 문제가 있습니다.", none⟩

/-- C10: for every call where the backend request of the unit-limit check
fails with any error, `ReservationService.checkApartmentReservationLimit`
returns `has_existing_reservation = false` with an empty list, so a store
failure lets a unit that already holds an active reservation pass the
pre-submission limit check. -/
theorem checkApartmentReservationLimit_fail_open (err : AppError) :
    ReservationService.checkApartmentReservationLimit (.error err) =
      { has_existing_reservation := false, existing_reservations := [] } := rfl

/-- Witness for `checkApartmentReservationLimit_fail_open`: a concrete
connection-refused failure during the apartment-limit check. -/
theorem checkApartmentReservationLimit_fail_open_witness :
    ReservationService.checkApartmentReservationLimit
      (.error ⟨.CONNECTION_REFUSED, "Connection refused", "서버에 연결할 수 없습니다.", none⟩) =
      { has_existing_reservation := false, existing_reservations := [] } :=
  checkApartmentReservationLimit_fail_open
    ⟨.CONNECTION_REFUSED, "Connection refused", "서버에 연결할 수 없습니다.", none⟩

namespace BusinessValidation

/-- Embedding of `BusinessValidation.validateReservationTime` from the
frontend validation module. The source receives HH:MM strings, builds
`Date` objects on 1970-01-01 and compares them; here a wall-clock time is
its total number of minutes, so `start >= end` is minute comparison and
`diffHours = (end - start) / 60` exceeds 4 (resp. falls below 1) exactly
when the minute difference exceeds 240 (resp. falls below 60). Returns the
error message, or `none` (null) when the pair is accepted. -/
def validateReservationTime (startTime endTime : Nat) : Option String :=
  if startTime ≥ endTime then
    some "종료 시간은 시작 시간보다 늦어야 합니다."
  else if endTime - startTime > 240 then
    some "예약 시간은 최대 4시간까지 가능합니다."
  else if endTime - startTime < 60 then
    some "예약 시간은 최소 1시간 이상이어야 합니다."
  else
    none

end BusinessValidation

/-- C9: the reservation-time validator accepts a start/end pair (returns
null) exactly when the start is strictly before the end and the duration
is between 1 hour (60 minutes) and 4 hours (240 minutes) inclusive;
equivalently it returns an error message exactly when start ≥ end, the
duration exceeds 4 hours, or the duration is under 1 hour. -/
theorem validateReservationTime_bounds (s e : Nat) :
    (BusinessValidation.validateReservationTime s e = none ↔
      (s < e ∧ e - s ≤ 240 ∧ 60 ≤ e - s)) ∧
    ((BusinessValidation.validateReservationTime s e).isSome = true ↔
      (e ≤ s ∨ 240 < e - s ∨ e - s < 60)) := by
  unfold BusinessValidation.validateReservationTime
  constructor
  · split_ifs with h1 h2 h3 <;> simp <;> omega
  · split_ifs with h1 h2 h3 <;> simp <;> omega

/-- Witness for `validateReservationTime_bounds`: a 09:00–12:00 pair (540
and 720 minutes) is accepted, and the characterization holds there. -/
theorem validateReservationTime_bounds_witness :
    (BusinessValidation.validateReservationTime 540 720 = none ↔
      (540 < 720 ∧ 720 - 540 ≤ 240 ∧ 60 ≤ 720 - 540)) ∧
    ((BusinessValidation.validateReservationTime 540 720).isSome = true ↔
      (720 ≤ 540 ∨ 240 < 720 - 540 ∨ 720 - 540 < 60)) :=
  validateReservationTime_bounds 540 720

namespace Controller

/-- Modelled from the spec: the admin decision outcomes of section 4.3,
`approved | rejected` (the `AdminReservationAction.status` union of
reservations.ts). -/
inductive Decision where
  | approved
  | rejected
deriving DecidableEq, Repr

/-- Status written by an admin decision. -/
def decisionStatus (d : Decision) : Status :=
  match d with
  | .approved => .approved
  | .rejected => .rejected

/-- Modelled from the spec: the InvalidStateTransition error of the
section 7 taxonomy, produced by `decide` and `cancel` from an illegal
source state. -/
inductive TransitionError where
  | invalidStateTransition
deriving DecidableEq, Repr

/-- Modelled from the spec: the admin-only `decide` transition of section
4.3 applied to a reservation — only valid from `pending`, where it sets the
status to the decision outcome and stores the admin comment; from any other
source state it fails with `invalidStateTransition` and, the result being
an error, no updated record is produced (the stored reservation is left
unchanged). The backend endpoint `/api/reservations/{id}/status` enforcing
this is absent from the source tree; the admin page only offers
approve/reject buttons while `reservation.status === 'pending'`. -/
def decideReservation (r : Reservation) (d : Decision) (comment : Option String) :
    Except TransitionError Reservation :=
  match r.status with
  | .pending => .ok { r with status := decisionStatus d, adminComment := comment }
  | _ => .error .invalidStateTransition

/-- Modelled from the spec: the owner-only `cancel` transition of section
4.3 applied to a reservation — valid from `pending` or `approved`, where it
sets the status to `cancelled`; from any terminal state it fails with
`invalidStateTransition` leaving the reservation unchanged. -/
def cancelReservation (r : Reservation) : Except TransitionError Reservation :=
  match r.status with
  | .pending => .ok { r with status := .cancelled }
  | .approved => .ok { r with status := .cancelled }
  | _ => .error .invalidStateTransition

end Controller

/-- C6: `decide` succeeds exactly when the reservation is `pending`,
`cancel` succeeds exactly from `pending` or `approved`, every other source
state makes them fail with `invalidStateTransition` (producing no updated
record, so the reservation is unchanged), and in particular deciding an
already-approved reservation fails. -/
theorem decide_cancel_legality (r : Reservation) (d : Controller.Decision) (c : Option String) :
    ((∃ r', Controller.decideReservation r d c = .ok r') ↔ r.status = .pending) ∧
    ((∃ r', Controller.cancelReservation r = .ok r') ↔
      (r.status = .pending ∨ r.status = .approved)) ∧
    (r.status ≠ .pending →
      Controller.decideReservation r d c = .error .invalidStateTransition) ∧
    (r.status ≠ .pending → r.status ≠ .approved →
      Controller.cancelReservation r = .error .invalidStateTransition) ∧
    (r.status = .approved →
      Controller.decideReservation r d c = .error .invalidStateTransition) := by
  unfold Controller.decideReservation Controller.cancelReservation
  cases hs : r.status <;> simp [hs]

/-- Witness for `decide_cancel_legality`: an approved elevator reservation
cannot be decided again but can still be cancelled. -/
theorem decide_cancel_legality_witness :
    Controller.decideReservation ⟨1, 101, .elevator, 9, 12, .approved, none⟩
      Controller.Decision.approved none = .error .invalidStateTransition ∧
    (∃ r', Controller.cancelReservation ⟨1, 101, .elevator, 9, 12, .approved, none⟩ = .ok r') := by
  have h := decide_cancel_legality ⟨1, 101, .elevator, 9, 12, .approved, none⟩
    Controller.Decision.approved none
  exact ⟨h.2.2.2.2 rfl, h.2.1.mpr (Or.inr rfl)⟩

/-- An operation outcome counts as a propagated exception when it is a
thrown error rather than a returned value (in the embedding, the `.error`
branch of `Except ThrownError _` models a `throw`). -/
def isException (o : Except ThrownError Reservation) : Bool :=
  match o with
  | .ok _ => false
  | .error _ => true

/-- Counterexample to C7: a backend `RESERVATION_TIME_CONFLICT` error is
not returned by `ReservationService.createReservation` as a typed outcome
carrying the conflicting records — it propagates as a thrown exception
carrying only the generic fallback message. -/
theorem createReservation_error_is_exception_cex :
    isException (ReservationService.createReservation
      (.error ⟨.RESERVATION_TIME_CONFLICT, "Reservation time conflict",
        "선택한 시간에 다른 예약이 있습니다.", some 409⟩)) = true ∧
    ReservationService.createReservation
      (.error ⟨.RESERVATION_TIME_CONFLICT, "Reservation time conflict",
        "선택한 시간에 다른 예약이 있습니다.", some 409⟩) =
      .error ⟨"예약 생성에 실패했습니다."⟩ :=
  ⟨rfl, rfl⟩

/-- C7 amended: the two checker operations return typed outcomes and never
throw — on any backend error they degrade to their safe defaults — while
the mutating operations (`createReservation`, and `approveReservation` /
`rejectReservation` via `updateReservationStatus`) re-throw every backend
error as a plain `Error` exception carrying only a generic message string
and none of the blocking or conflicting records; the presentation layer
must catch these exceptions itself. -/
theorem error_surface_amended (err : AppError) (ty : ResourceType)
    (s e : Nat) (ex : Option Nat) :
    ReservationService.checkConflict ty s e ex (.error err) =
      { has_conflict := false, conflicting_reservations := [] } ∧
    ReservationService.checkApartmentReservationLimit (.error err) =
      { has_existing_reservation := false, existing_reservations := [] } ∧
    ReservationService.createReservation (.error err) =
      .error ⟨"예약 생성에 실패했습니다."⟩ ∧
    isException (ReservationService.createReservation (.error err)) = true ∧
    ReservationService.approveReservation (.error err) =
      .error ⟨"예약 상태 변경에 실패했습니다."⟩ ∧
    ReservationService.rejectReservation (.error err) =
      .error ⟨"예약 상태 변경에 실패했습니다."⟩ :=
  ⟨rfl, rfl, rfl, rfl, rfl, rfl⟩

/-- Witness for `error_surface_amended`: the behavior at a concrete
unavailability error (connection refused during an elevator conflict
check and the mutating calls). -/
theorem error_surface_amended_witness :
    ReservationService.checkConflict .elevator 9 12 none
      (.error ⟨.OPERATION_FAILED, "Request failed", "작업 처리에 실패했습니다.", some 500⟩) =
      { has_conflict := false, conflicting_reservations := [] } ∧
    ReservationService.checkApartmentReservationLimit
      (.error ⟨.OPERATION_FAILED, "Request failed", "작업 처리에 실패했습니다.", some 500⟩) =
      { has_existing_reservation := false, existing_reservations := [] } ∧
    ReservationService.createReservation
      (.error ⟨.OPERATION_FAILED, "Request failed", "작업 처리에 실패했습니다.", some 500⟩) =
      .error ⟨"예약 생성에 실패했습니다."⟩ ∧
    isException (ReservationService.createReservation
      (.error ⟨.OPERATION_FAILED, "Request failed", "작업 처리에 실패했습니다.", some 500⟩)) = true ∧
    ReservationService.approveReservation
      (.error ⟨.OPERATION_FAILED, "Request failed", "작업 처리에 실패했습니다.", some 500⟩) =
      .error ⟨"예약 상태 변경에 실패했습니다."⟩ ∧
    ReservationService.rejectReservation
      (.error ⟨.OPERATION_FAILED, "Request failed", "작업 처리에 실패했습니다.", some 500⟩) =
      .error ⟨"예약 상태 변경에 실패했습니다."⟩ :=
  error_surface_amended ⟨.OPERATION_FAILED, "Request failed", "작업 처리에 실패했습니다.", some 500⟩
    .elevator 9 12 none

/-- The JavaScript `trim()` used on the description field: strip leading
and trailing whitespace (implemented over the character list so that it
evaluates). -/
def jsTrim (s : String) : String :=
  String.mk (((s.toList.dropWhile Char.isWhitespace).reverse.dropWhile Char.isWhitespace).reverse)

/-- Embedding of the `TimeSlot` interface of the reservation component;
`startTime`/`endTime` are the hour numbers the source extracts from the
HH:MM strings via `split(':')`. -/
structure TimeSlot where
  id : String
  label : String
  startTime : Nat
  endTime : Nat
  isAvailable : Bool
deriving DecidableEq, Repr

/-- The fixed slot table of the reservation component (reservation.tsx
lines 54–58): 9–12, 12–15 and 15–18 o'clock. -/
def timeSlots : List TimeSlot :=
  [ { id := "1", label := "9시~12시", startTime := 9, endTime := 12, isAvailable := true },
    { id := "2", label := "12시~15시", startTime := 12, endTime := 15, isAvailable := true },
    { id := "3", label := "15시~18시", startTime := 15, endTime := 18, isAvailable := true } ]

/-- Embedding of the `CreateReservationRequest` interface of
reservations.ts; a timestamp is `day * 24 + hour` for the selected day
index and slot hour (the source builds the same instant via `setHours`). -/
structure CreateReservationRequest where
  reservation_type : ResourceType
  start_time : Nat
  end_time : Nat
  description : Option String
deriving DecidableEq, Repr

/-- The client-side state read by `handleSubmit`: the apartment-limit flag
and records loaded on mount, the selected date (`none` when unset) and
time-slot id (`""` when unset), the slot table, the chosen reservation
type and the free-text description. -/
structure ClientState where
  hasExistingReservation : Bool
  existingReservations : List Reservation
  selectedDate : Option Nat
  selectedTimeSlot : String
  timeSlots : List TimeSlot
  reservationType : ResourceType
  description : String
deriving DecidableEq, Repr

/-- The observable outcome of one `handleSubmit` run: which error message
is set, or the reservation request that was sent on success. -/
inductive SubmitOutcome where
  | unitLimitBlocked (existingCount : Nat)
  | missingSelection
  | invalidTimeSlot
  | timeConflictBlocked
  | created (request : CreateReservationRequest)
  | createFailed (message : String)
deriving DecidableEq, Repr

/-- Embedding of `handleSubmit` of the reservation component
(reservation.tsx lines 144–210). In source order: (1) if
`hasExistingReservation`, set the per-unit limit error and return; (2) if
no date or no time slot is selected, set the selection error and return;
(3) if the selected slot id is not in the table, set the invalid-slot
error and return; (4) run the conflict check (through
`ReservationService.checkConflict`, whose backend response is the
`conflictResponse` argument) and stop with the conflict error when it
reports a conflict; (5) otherwise call
`ReservationService.createReservation` (backend response
`createResponse`), reporting its thrown message on failure. -/
def handleSubmit (st : ClientState) (conflictResponse : Except AppError ConflictResult)
    (createResponse : Except AppError Reservation) : SubmitOutcome :=
  if st.hasExistingReservation then
    .unitLimitBlocked st.existingReservations.length
  else
    match st.selectedDate with
    | none => .missingSelection
    | some date =>
      if st.selectedTimeSlot = "" then
        .missingSelection
      else
        match st.timeSlots.find? (fun slot => slot.id == st.selectedTimeSlot) with
        | none => .invalidTimeSlot
        | some slot =>
          if (ReservationService.checkConflict st.reservationType
              (date * 24 + slot.startTime) (date * 24 + slot.endTime) none
              conflictResponse).has_conflict then
            .timeConflictBlocked
          else
            match ReservationService.createReservation createResponse with
            | .ok _ =>
              .created
                { reservation_type := st.reservationType
                  start_time := date * 24 + slot.startTime
                  end_time := date * 24 + slot.endTime
                  description :=
                    if jsTrim st.description = "" then none else some (jsTrim st.description) }
            | .error err => .createFailed err.message

/-- Counterexample to C5 as stated: with no date selected (a request-shape
validation failure) and an existing active reservation for the unit,
`handleSubmit` reports the unit-limit error, not the validation error —
the unit-cardinality check runs before request-shape validation. -/
theorem handleSubmit_unit_check_first_cex :
    handleSubmit
      ⟨true, [⟨1, 101, .elevator, 9, 12, .pending, none⟩], none, "", timeSlots, .elevator, ""⟩
      (.ok ⟨false, []⟩) (.ok ⟨2, 101, .elevator, 9, 12, .pending, none⟩) =
      .unitLimitBlocked 1 ∧
    handleSubmit
      ⟨true, [⟨1, 101, .elevator, 9, 12, .pending, none⟩], none, "", timeSlots, .elevator, ""⟩
      (.ok ⟨false, []⟩) (.ok ⟨2, 101, .elevator, 9, 12, .pending, none⟩) ≠
      .missingSelection := by
  exact ⟨rfl, by decide⟩

/-- C5 amended: `handleSubmit` first runs the unit-cardinality check
(blocking with the unit-limit error and the count of existing
reservations), then validates the request shape (date and time-slot
selection, slot-id lookup), then runs the conflict check (blocking with
the time-conflict error), and only if all checks pass sends the create
request; the admission `submit` persists every admitted reservation with
initial status `pending`. -/
theorem handleSubmit_order_characterization (st : ClientState)
    (cresp : Except AppError ConflictResult) (mresp : Except AppError Reservation) :
    (st.hasExistingReservation = true →
      handleSubmit st cresp mresp = .unitLimitBlocked st.existingReservations.length) ∧
    (st.hasExistingReservation = false → st.selectedDate = none →
      handleSubmit st cresp mresp = .missingSelection) ∧
    (∀ date : Nat, st.hasExistingReservation = false → st.selectedDate = some date →
      st.selectedTimeSlot = "" → handleSubmit st cresp mresp = .missingSelection) ∧
    (∀ date : Nat, st.hasExistingReservation = false → st.selectedDate = some date →
      st.selectedTimeSlot ≠ "" →
      st.timeSlots.find? (fun slot => slot.id == st.selectedTimeSlot) = none →
      handleSubmit st cresp mresp = .invalidTimeSlot) ∧
    (∀ (date : Nat) (slot : TimeSlot), st.hasExistingReservation = false →
      st.selectedDate = some date → st.selectedTimeSlot ≠ "" →
      st.timeSlots.find? (fun s => s.id == st.selectedTimeSlot) = some slot →
      (ReservationService.checkConflict st.reservationType (date * 24 + slot.startTime)
        (date * 24 + slot.endTime) none cresp).has_conflict = true →
      handleSubmit st cresp mresp = .timeConflictBlocked) ∧
    (∀ (date : Nat) (slot : TimeSlot) (created : Reservation),
      st.hasExistingReservation = false →
      st.selectedDate = some date → st.selectedTimeSlot ≠ "" →
      st.timeSlots.find? (fun s => s.id == st.selectedTimeSlot) = some slot →
      (ReservationService.checkConflict st.reservationType (date * 24 + slot.startTime)
        (date * 24 + slot.endTime) none cresp).has_conflict = false →
      mresp = .ok created →
      handleSubmit st cresp mresp = .created
        { reservation_type := st.reservationType
          start_time := date * 24 + slot.startTime
          end_time := date * 24 + slot.endTime
          description := if jsTrim st.description = "" then none else some (jsTrim st.description) }) ∧
    (∀ (store : List Reservation) (req : ReservationRequest) (newId : Nat)
      (r : Reservation) (s' : List Reservation),
      Controller.submit store req newId = .ok (r, s') → r.status = .pending) := by
  refine ⟨?_, ?_, ?_, ?_, ?_, ?_, ?_⟩
  · intro h
    simp [handleSubmit, h]
  · intro h hd
    simp [handleSubmit, h, hd]
  · intro date h hd hs
    simp [handleSubmit, h, hd, hs]
  · intro date h hd hs hf
    simp [handleSubmit, h, hd, hs, hf]
  · intro date slot h hd hs hf hc
    simp [handleSubmit, h, hd, hs, hf, hc]
  · intro date slot created h hd hs hf hc hok
    simp [handleSubmit, h, hd, hs, hf, hc, hok, ReservationService.createReservation]
  · intro store req newId r s' hsub
    obtain ⟨-, -, -, hr, -⟩ := Controller.submit_ok_elim hsub
    rw [hr]
    rfl

/-- Witness for `handleSubmit_order_characterization`: a blocked unit sees
the unit-limit error even with nothing selected; a clean state with day 0
and slot "1" sends the 9–12 elevator request; and an admitted reservation
is pending. -/
theorem handleSubmit_order_characterization_witness :
    handleSubmit
      ⟨true, [⟨1, 101, .elevator, 9, 12, .pending, none⟩], none, "", timeSlots, .elevator, ""⟩
      (.ok ⟨false, []⟩) (.ok ⟨2, 102, .elevator, 9, 12, .pending, none⟩) =
      .unitLimitBlocked 1 ∧
    handleSubmit ⟨false, [], some 0, "1", timeSlots, .elevator, ""⟩
      (.ok ⟨false, []⟩) (.ok ⟨2, 102, .elevator, 9, 12, .pending, none⟩) =
      .created ⟨.elevator, 9, 12, none⟩ ∧
    (⟨1, 101, .elevator, 9, 12, .pending, none⟩ : Reservation).status = .pending := by
  refine ⟨?_, ?_, ?_⟩
  · exact (handleSubmit_order_characterization
      ⟨true, [⟨1, 101, .elevator, 9, 12, .pending, none⟩], none, "", timeSlots, .elevator, ""⟩
      (.ok ⟨false, []⟩) (.ok ⟨2, 102, .elevator, 9, 12, .pending, none⟩)).1 rfl
  · have h2 := (handleSubmit_order_characterization
      ⟨false, [], some 0, "1", timeSlots, .elevator, ""⟩
      (.ok ⟨false, []⟩) (.ok ⟨2, 102, .elevator, 9, 12, .pending, none⟩)).2.2.2.2.2.1
      0 ⟨"1", "9시~12시", 9, 12, true⟩ ⟨2, 102, .elevator, 9, 12, .pending, none⟩
      rfl rfl (by decide) rfl rfl rfl
    rw [h2]
    rfl
  · exact (handleSubmit_order_characterization
      ⟨false, [], some 0, "1", timeSlots, .elevator, ""⟩
      (.ok ⟨false, []⟩) (.ok ⟨2, 102, .elevator, 9, 12, .pending, none⟩)).2.2.2.2.2.2
      [] ⟨.elevator, 9, 12, 101, none⟩ 1 ⟨1, 101, .elevator, 9, 12, .pending, none⟩
      [⟨1, 101, .elevator, 9, 12, .pending, none⟩] rfl

namespace Controller

/-- The combined pre-write check of one submission attempt (spec section
4.3 steps 1–3): the request validates, its unit holds no active
reservation, and no active same-type reservation overlaps its window. -/
def passesChecks (store : List Reservation) (req : ReservationRequest) : Bool :=
  validateRequest req &&
  !(checkUnitLimit store req.requestingUnit).has_existing_reservation &&
  !(checkConflict store req.resourceType req.startTime req.endTime none).has_conflict

end Controller

/-- Progress of one concurrent submission attempt through the
check-then-create sequence. -/
inductive Phase where
  | ready
  | checked
  | committed
  | refused
deriving DecidableEq, Repr

/-- One concurrent submission attempt: its request, the id its record
would receive, and how far it has progressed. -/
structure ProcState where
  req : ReservationRequest
  newId : Nat
  phase : Phase
deriving DecidableEq, Repr

/-- Two submission attempts racing over the shared reservation store (spec
section 5: request-per-call scheduling with no inherent ordering). -/
structure RaceState where
  store : List Reservation
  procA : ProcState
  procB : ProcState
deriving DecidableEq, Repr

/-- Which of the two attempts takes the next atomic step. -/
inductive Tid where
  | A
  | B
deriving DecidableEq, Repr

/-- One atomic step of the named attempt: a `ready` attempt runs its
checks against the current store (becoming `checked` or `refused`); a
`checked` attempt commits its pending record to the store. The read
(checks) and the write (create) are separate steps, as in the code, where
the conflict check and the create call are distinct awaited requests. -/
def stepRace (s : RaceState) (t : Tid) : RaceState :=
  match t with
  | .A =>
    match s.procA.phase with
    | .ready =>
      if Controller.passesChecks s.store s.procA.req then
        { s with procA := { s.procA with phase := .checked } }
      else
        { s with procA := { s.procA with phase := .refused } }
    | .checked =>
      { s with
        store := Controller.newReservation s.procA.req s.procA.newId :: s.store
        procA := { s.procA with phase := .committed } }
    | _ => s
  | .B =>
    match s.procB.phase with
    | .ready =>
      if Controller.passesChecks s.store s.procB.req then
        { s with procB := { s.procB with phase := .checked } }
      else
        { s with procB := { s.procB with phase := .refused } }
    | .checked =>
      { s with
        store := Controller.newReservation s.procB.req s.procB.newId :: s.store
        procB := { s.procB with phase := .committed } }
    | _ => s

/-- Run the two racing attempts under a given interleaving. -/
def runRace (s : RaceState) : List Tid → RaceState
  | [] => s
  | t :: ts => runRace (stepRace s t) ts

/-- Counterexample to C8 as stated: under the interleaving
check-A, check-B, create-A, create-B, two concurrent overlapping elevator
submissions both pass their checks and are both admitted, and the
resulting store violates the no-double-booking invariant — the
check-then-create sequence is not atomic. -/
theorem concurrent_double_booking_cex :
    (runRace ⟨[], ⟨⟨.elevator, 9, 12, 101, none⟩, 1, .ready⟩,
        ⟨⟨.elevator, 11, 13, 102, none⟩, 2, .ready⟩⟩
      [.A, .B, .A, .B]).procA.phase = .committed ∧
    (runRace ⟨[], ⟨⟨.elevator, 9, 12, 101, none⟩, 1, .ready⟩,
        ⟨⟨.elevator, 11, 13, 102, none⟩, 2, .ready⟩⟩
      [.A, .B, .A, .B]).procB.phase = .committed ∧
    conflictFree ((runRace ⟨[], ⟨⟨.elevator, 9, 12, 101, none⟩, 1, .ready⟩,
        ⟨⟨.elevator, 11, 13, 102, none⟩, 2, .ready⟩⟩
      [.A, .B, .A, .B]).store) = false :=
  ⟨rfl, rfl, rfl⟩

/-- C8 amended: the code provides no serialization around the
check-then-create sequence, so whenever two concurrent submissions with
overlapping windows for the same resource type both pass their checks
against the same store snapshot, the interleaving that runs both checks
before either create admits both and produces a store that violates the
no-double-booking invariant; atomicity of steps 2–4 is a requirement the
spec places on implementers, not a property the code guarantees. -/
theorem interleaved_submissions_double_booking (s0 : List Reservation)
    (a b : ProcState) (ha : a.phase = .ready) (hb : b.phase = .ready)
    (hA : Controller.passesChecks s0 a.req = true)
    (hB : Controller.passesChecks s0 b.req = true)
    (hty : a.req.resourceType = b.req.resourceType)
    (hov : overlapsWindow b.req.startTime b.req.endTime
      a.req.startTime a.req.endTime = true) :
    (runRace ⟨s0, a, b⟩ [.A, .B, .A, .B]).procA.phase = .committed ∧
    (runRace ⟨s0, a, b⟩ [.A, .B, .A, .B]).procB.phase = .committed ∧
    conflictFree ((runRace ⟨s0, a, b⟩ [.A, .B, .A, .B]).store) = false := by
  have hrun : runRace ⟨s0, a, b⟩ [.A, .B, .A, .B] =
      ⟨Controller.newReservation b.req b.newId ::
        Controller.newReservation a.req a.newId :: s0,
       { a with phase := .committed }, { b with phase := .committed }⟩ := by
    simp [runRace, stepRace, ha, hb, hA, hB]
  have hclash : clash (Controller.newReservation b.req b.newId)
      (Controller.newReservation a.req a.newId) = true := by
    simp [clash, Controller.newReservation, overlaps, hov, hty.symm, isActive]
  refine ⟨by rw [hrun], by rw [hrun], ?_⟩
  rw [hrun]
  simp [conflictFree, hclash]

/-- Witness for `interleaved_submissions_double_booking`: the concrete
race of an elevator 9–12 submission from unit 101 against an overlapping
elevator 11–13 submission from unit 102 over an empty store. -/
theorem interleaved_submissions_double_booking_witness :
    (runRace ⟨[], ⟨⟨.elevator, 9, 12, 101, none⟩, 1, .ready⟩,
        ⟨⟨.elevator, 11, 13, 102, none⟩, 2, .ready⟩⟩
      [.A, .B, .A, .B]).procA.phase = .committed ∧
    (runRace ⟨[], ⟨⟨.elevator, 9, 12, 101, none⟩, 1, .ready⟩,
        ⟨⟨.elevator, 11, 13, 102, none⟩, 2, .ready⟩⟩
      [.A, .B, .A, .B]).procB.phase = .committed ∧
    conflictFree ((runRace ⟨[], ⟨⟨.elevator, 9, 12, 101, none⟩, 1, .ready⟩,
        ⟨⟨.elevator, 11, 13, 102, none⟩, 2, .ready⟩⟩
      [.A, .B, .A, .B]).store) = false :=
  interleaved_submissions_double_booking []
    ⟨⟨.elevator, 9, 12, 101, none⟩, 1, .ready⟩
    ⟨⟨.elevator, 11, 13, 102, none⟩, 2, .ready⟩
    rfl rfl rfl rfl rfl rfl
